import Mathlib

/-!
# Verification of the Vormaza landing-page particle engine

A shallow embedding, in Lean 4, of the particle animation engine of
`src/components/ui/particle-effect-for-hero.tsx` (the `AntiGravityCanvas`
component), together with theorems settling the frozen claims about it.

Modelling conventions:
* JS `number` arithmetic is idealised as real-number arithmetic (`ℝ`).
  The one place where a non-finite JS value (`NaN` from `0/0`) is reachable
  is modelled separately with `Option ℝ` (`none` = non-finite), see
  `jsDiv` / `mouseStepJS`.
* `Math.random()` draws are modelled by an explicit stream `rand : ℕ → ℝ`
  passed to the initialisation function; draws are numbered in the exact
  order the source performs them.
* The mutable particle array is a `List Particle`; in-place element updates
  become `List.set`, element reads become `List.getD · default` (all reads
  in the source are in bounds).
* Canvas drawing calls (`clearRect`, gradients, `arc`, `fill`) write pixels
  only and mutate no simulator state; they are not modelled.  The FPS text
  write is likewise external.
-/

namespace Vormaza

open scoped Classical

/-- Foreground particle record, from the `Particle` interface of the source
(`x`, `y`, `originX`, `originY`, `vx`, `vy`, `size`, `color`, `angle`). -/
structure Particle where
  x : ℝ
  y : ℝ
  originX : ℝ
  originY : ℝ
  vx : ℝ
  vy : ℝ
  size : ℝ
  color : String
  angle : ℝ

instance : Inhabited Particle :=
  ⟨{ x := 0, y := 0, originX := 0, originY := 0, vx := 0, vy := 0,
     size := 0, color := "", angle := 0 }⟩

/-- Background particle record, from the `BackgroundParticle` interface. -/
structure BackgroundParticle where
  x : ℝ
  y : ℝ
  vx : ℝ
  vy : ℝ
  size : ℝ
  alpha : ℝ
  phase : ℝ

/-- Pointer state, from the `MouseState` interface. -/
structure MouseState where
  x : ℝ
  y : ℝ
  isActive : Bool

/-- Source constant `PARTICLE_DENSITY = 0.00015`. -/
def PARTICLE_DENSITY : ℝ := 0.00015

/-- Source constant `BG_PARTICLE_DENSITY = 0.00005`. -/
def BG_PARTICLE_DENSITY : ℝ := 0.00005

/-- Source constant `MOUSE_RADIUS = 250`. -/
def MOUSE_RADIUS : ℝ := 250

/-- Source constant `RETURN_SPEED = 0.05`. -/
def RETURN_SPEED : ℝ := 0.05

/-- Source constant `DAMPING = 0.92`. -/
def DAMPING : ℝ := 0.92

/-- Source constant `REPULSION_STRENGTH = 1.2`. -/
def REPULSION_STRENGTH : ℝ := 1.2

/-- Source helper `randomRange(min, max) = Math.random() * (max - min) + min`, with the
`Math.random()` sample `r` passed explicitly (`lo`/`hi` rename the source's
`min`/`max` to avoid clashing with the Lean functions of those names). -/
def randomRange (r lo hi : ℝ) : ℝ := r * (hi - lo) + lo

/-- Source helper `lerpColor(start, end, factor)`: per-channel linear interpolation of two
RGB triples followed by `Math.round`.  JS `Math.round x = ⌊x + 1/2⌋`, which
is exactly Mathlib's `round` on `ℝ`.  The source's `end` parameter is
renamed `stop` (`end` is a Lean keyword). -/
noncomputable def lerpColor (start stop : Fin 3 → ℝ) (factor : ℝ) : Fin 3 → ℤ :=
  fun i => round (start i + (stop i - start i) * factor)

/-- Gradient stop 0, `[66, 133, 244]` (blue). -/
def colorStop0 : Fin 3 → ℝ := ![66, 133, 244]

/-- Gradient stop 1, `[147, 51, 234]` (purple). -/
def colorStop1 : Fin 3 → ℝ := ![147, 51, 234]

/-- Gradient stop 2, `[34, 211, 238]` (cyan). -/
def colorStop2 : Fin 3 → ℝ := ![34, 211, 238]

/-- The per-frame gradient colour selection of `animate` (lines 204-209):
`if (scrollProgress <= 1) lerpColor(stop0, stop1, scrollProgress)
 else lerpColor(stop1, stop2, scrollProgress - 1)`. -/
noncomputable def currentColor (scrollProgress : ℝ) : Fin 3 → ℤ :=
  if scrollProgress ≤ 1 then lerpColor colorStop0 colorStop1 scrollProgress
  else lerpColor colorStop1 colorStop2 (scrollProgress - 1)

/-- Scroll progress `Math.min(Math.max(currentScroll / window.innerHeight, 0), 2)`
(line 194). -/
noncomputable def scrollProgressOf (currentScroll innerHeight : ℝ) : ℝ :=
  min (max (currentScroll / innerHeight) 0) 2

/-- One foreground particle as built in the `initParticles` loop
(lines 123-138).  `rand` is the `Math.random()` stream; iteration `i`
consumes draws `5*i .. 5*i+4` in source order: `x`, `y`, `size`,
`color`, `angle`. -/
noncomputable def mkParticle (rand : ℕ → ℝ) (width height : ℝ) (i : ℕ) : Particle :=
  let x := rand (5 * i) * width
  let y := rand (5 * i + 1) * height
  { x := x, y := y, originX := x, originY := y, vx := 0, vy := 0,
    size := randomRange (rand (5 * i + 2)) 1 2.5,
    color := if rand (5 * i + 3) > 0.9 then "#4285F4" else "#ffffff",
    angle := rand (5 * i + 4) * Real.pi * 2 }

/-- One background particle as built in the second `initParticles` loop
(lines 144-154); iteration `i` consumes draws `base + 7*i .. base + 7*i+6`
in source order: `x`, `y`, `vx`, `vy`, `size`, `alpha`, `phase`. -/
noncomputable def mkBackgroundParticle (rand : ℕ → ℝ) (width height : ℝ)
    (base i : ℕ) : BackgroundParticle :=
  { x := rand (base + 7 * i) * width,
    y := rand (base + 7 * i + 1) * height,
    vx := (rand (base + 7 * i + 2) - 0.5) * 0.2,
    vy := (rand (base + 7 * i + 3) - 0.5) * 0.2,
    size := randomRange (rand (base + 7 * i + 4)) 0.5 1.5,
    alpha := randomRange (rand (base + 7 * i + 5)) 0.1 0.4,
    phase := rand (base + 7 * i + 6) * Real.pi * 2 }

/-- Result of `initParticles`: the two freshly built populations (written to
`particlesRef` / `backgroundParticlesRef`) and the total reported through
`setEntityCount`. -/
structure InitResult where
  particles : List Particle
  backgroundParticles : List BackgroundParticle
  entityCount : ℤ

/-- Initialisation `initParticles(width, height)` (lines 119-160):
`particleCount = Math.floor(width * height * PARTICLE_DENSITY)` foreground
particles, `bgCount = Math.floor(width * height * BG_PARTICLE_DENSITY)`
background particles, and `setEntityCount(particleCount + bgCount)`. -/
noncomputable def initParticles (rand : ℕ → ℝ) (width height : ℝ) : InitResult :=
  let particleCount : ℤ := ⌊width * height * PARTICLE_DENSITY⌋
  let newParticles :=
    (List.range particleCount.toNat).map (mkParticle rand width height)
  let bgCount : ℤ := ⌊width * height * BG_PARTICLE_DENSITY⌋
  let newBgParticles :=
    (List.range bgCount.toNat).map
      (mkBackgroundParticle rand width height (5 * particleCount.toNat))
  { particles := newParticles, backgroundParticles := newBgParticles,
    entityCount := particleCount + bgCount }

/-- Mouse interaction on one foreground particle (`animate`, lines 262-274):
if the pointer is active and within `MOUSE_RADIUS`, subtract the unit
direction toward the pointer times `repulsion * 5` from the velocity.
Idealised real-number model; `distance = 0` (where JS produces `NaN`
from `0/0`) is refined by `mouseStepJS` below. -/
noncomputable def mouseStep (mouse : MouseState) (p : Particle) : Particle :=
  let dx := mouse.x - p.x
  let dy := mouse.y - p.y
  let distance := Real.sqrt (dx * dx + dy * dy)
  if mouse.isActive = true ∧ distance < MOUSE_RADIUS then
    let forceDirectionX := dx / distance
    let forceDirectionY := dy / distance
    let force := (MOUSE_RADIUS - distance) / MOUSE_RADIUS
    let repulsion := force * REPULSION_STRENGTH
    { p with vx := p.vx - forceDirectionX * repulsion * 5,
             vy := p.vy - forceDirectionY * repulsion * 5 }
  else p

/-- JS division as used in the repulsion step, with non-finite results
tracked: `none` models a non-finite JS value (`NaN` when `0/0`; in this
step a zero divisor forces a zero dividend, since the divisor is the
Euclidean norm of the dividend pair, so `none` is always `NaN` here). -/
noncomputable def jsDiv (a b : ℝ) : Option ℝ :=
  if b = 0 then none else some (a / b)

/-- The NaN-faithful refinement of `mouseStep` (same source lines 262-274):
the force direction is `dx / distance`, `dy / distance` with no guard on
`distance = 0`; a non-finite component poisons the updated velocity
(`none`). -/
noncomputable def mouseStepJS (mouse : MouseState) (p : Particle) : Option Particle :=
  let dx := mouse.x - p.x
  let dy := mouse.y - p.y
  let distance := Real.sqrt (dx * dx + dy * dy)
  if mouse.isActive = true ∧ distance < MOUSE_RADIUS then
    match jsDiv dx distance, jsDiv dy distance with
    | some forceDirectionX, some forceDirectionY =>
      let force := (MOUSE_RADIUS - distance) / MOUSE_RADIUS
      let repulsion := force * REPULSION_STRENGTH
      some { p with vx := p.vx - forceDirectionX * repulsion * 5,
                    vy := p.vy - forceDirectionY * repulsion * 5 }
    | _, _ => none
  else some p

/-- Scroll wind on one foreground particle (`animate`, line 278):
`p.vy += scrollForce`. -/
def scrollStep (scrollForce : ℝ) (p : Particle) : Particle :=
  { p with vy := p.vy + scrollForce }

/-- Spring-to-origin on one foreground particle (`animate`, lines 282-286):
`p.vx += (originX - x) * RETURN_SPEED; p.vy += (originY - y) * RETURN_SPEED`. -/
def springStep (p : Particle) : Particle :=
  let springDx := p.originX - p.x
  let springDy := p.originY - p.y
  { p with vx := p.vx + springDx * RETURN_SPEED,
           vy := p.vy + springDy * RETURN_SPEED }

/-- Body of the first foreground loop (`animate`, lines 259-287): mouse
interaction, then scroll wind, then spring force, independently for each
particle. -/
noncomputable def forceStep (mouse : MouseState) (scrollForce : ℝ) (p : Particle) :
    Particle :=
  springStep (scrollStep scrollForce (mouseStep mouse p))

/-- Body of the inner collision loop (`animate`, lines 294-313): the check
of pair `(i, j)`.  If the squared distance is below the squared sum of
radii and the distance exceeds `0.01`, both particles are pushed apart
along the collision normal by half the overlap each. -/
noncomputable def collideAt (ps : List Particle) (i j : ℕ) : List Particle :=
  let p1 := ps.getD i default
  let p2 := ps.getD j default
  let dx := p2.x - p1.x
  let dy := p2.y - p1.y
  let distSq := dx * dx + dy * dy
  let minDist := p1.size + p2.size
  if distSq < minDist * minDist then
    let dist := Real.sqrt distSq
    if dist > 0.01 then
      let nx := dx / dist
      let ny := dy / dist
      let overlap := minDist - dist
      let pushX := nx * overlap * 0.5
      let pushY := ny * overlap * 0.5
      (ps.set i { p1 with x := p1.x - pushX, y := p1.y - pushY }).set j
        { p2 with x := p2.x + pushX, y := p2.y + pushY }
    else ps
  else ps

/-- Inner collision loop for index `i` (`animate`, line 293):
`for (let j = i + 1; j < particles.length; j++)`.  The list length is
invariant under `collideAt`, so iterating over the initial index range is
faithful. -/
noncomputable def innerCollisions (ps : List Particle) (i : ℕ) : List Particle :=
  (List.range' (i + 1) (ps.length - (i + 1))).foldl (fun s j => collideAt s i j) ps

/-- Damping and integration of particle `i` (`animate`, lines 317-320):
`vx *= DAMPING; vy *= DAMPING; x += vx; y += vy`. -/
def integrateStep (ps : List Particle) (i : ℕ) : List Particle :=
  let p1 := ps.getD i default
  let vx := p1.vx * DAMPING
  let vy := p1.vy * DAMPING
  ps.set i { p1 with vx := vx, vy := vy, x := p1.x + vx, y := p1.y + vy }

/-- The second foreground loop (`animate`, lines 290-338): for each index
`i` in order, run the inner collision loop when `i` is even
(`if (i % 2 === 0)`), then damp and integrate particle `i`.  (The drawing
of the particle that follows in the source mutates no state.) -/
noncomputable def collisionIntegratePass (ps : List Particle) : List Particle :=
  (List.range ps.length).foldl
    (fun s i => integrateStep (if i % 2 = 0 then innerCollisions s i else s) i) ps

/-- Full per-frame foreground update: the forces loop followed by the
collision/integration loop. -/
noncomputable def frameUpdateFg (mouse : MouseState) (scrollForce : ℝ)
    (ps : List Particle) : List Particle :=
  collisionIntegratePass (ps.map (forceStep mouse scrollForce))

/-- Background particle advance and edge wrap (`animate`, lines 236-243):
`x += vx; y += vy + scrollForce * 0.1;` then
`if (x < 0) x = width; if (x > width) x = 0;` and the same for `y`
against `height`.  (The twinkle factor computed next affects only the
drawn alpha.) -/
noncomputable def bgStep (width height scrollForce : ℝ) (p : BackgroundParticle) :
    BackgroundParticle :=
  let x1 := p.x + p.vx
  let y1 := p.y + p.vy + scrollForce * 0.1
  let x2 := if x1 < 0 then width else x1
  let x3 := if x2 > width then 0 else x2
  let y2 := if y1 < 0 then height else y1
  let y3 := if y2 > height then 0 else y2
  { p with x := x3, y := y3 }

/-- The drawing surface: backing-store size plus whether
`canvas.getContext('2d')` yields a context. -/
structure Canvas where
  width : ℝ
  height : ℝ
  ctx2d : Option Unit

/-- Scroll container readings (`scrollRef.current` when non-null). -/
structure ScrollInfo where
  scrollTop : ℝ
  scrollHeight : ℝ
  clientHeight : ℝ

/-- The simulator's mutable state touched by the frame callback: the two
particle populations and the bookkeeping refs (`lastTimeRef`,
`frameCountRef`, `lastFpsTimeRef`, `lastScrollTopRef`). -/
structure SimState where
  particles : List Particle
  backgroundParticles : List BackgroundParticle
  lastScrollTop : ℝ
  lastTime : ℝ
  frameCount : ℕ
  lastFpsTime : ℝ

/-- The frame callback `animate(time)` (lines 163-341).  Returns the new
state and whether `requestAnimationFrame` was re-armed.  A `none` canvas
models `canvasRef.current` being null; `ctx2d = none` models
`getContext('2d')` returning null; both guards precede every state
mutation and cause an early return without re-requesting the next frame.
A `none` `scroll` models a null `scrollRef.current` (`scrollDelta` and
`scrollProgress` stay `0`).  Pixel output and the once-per-second FPS text
write are external effects, not state. -/
noncomputable def animate (time : ℝ) (canvas : Option Canvas)
    (scroll : Option ScrollInfo) (innerHeight : ℝ) (mouse : MouseState)
    (st : SimState) : SimState × Bool :=
  match canvas with
  | none => (st, false)
  | some c =>
    match c.ctx2d with
    | none => (st, false)
    | some _ =>
      let lastTime := time
      let frameCount1 := st.frameCount + 1
      let fps : ℕ × ℝ :=
        if time - st.lastFpsTime ≥ 1000 then (0, time)
        else (frameCount1, st.lastFpsTime)
      let scrollRead : ℝ × ℝ × ℝ :=
        match scroll with
        | none => (0, 0, st.lastScrollTop)
        | some s =>
          let currentScroll := s.scrollTop
          let maxScroll := s.scrollHeight - s.clientHeight
          let _ := maxScroll
          (currentScroll - st.lastScrollTop,
           scrollProgressOf currentScroll innerHeight, currentScroll)
      let scrollDelta := scrollRead.1
      let scrollProgress := scrollRead.2.1
      let lastScrollTop := scrollRead.2.2
      let scrollForce := -scrollDelta * 0.05
      let rgb := currentColor scrollProgress
      let _ := rgb
      let bgs := st.backgroundParticles.map (bgStep c.width c.height scrollForce)
      let ps := frameUpdateFg mouse scrollForce st.particles
      ({ particles := ps, backgroundParticles := bgs,
         lastScrollTop := lastScrollTop, lastTime := lastTime,
         frameCount := fps.1, lastFpsTime := fps.2 }, true)

/-- States that `qs` agrees with `ps` in length and, at every index, in the two origin
fields.  Used to track that per-frame updates never touch `originX`/`originY`. -/
def OriginEq (qs ps : List Particle) : Prop :=
  qs.length = ps.length ∧
    ∀ k : ℕ, ((qs.getD k default).originX = (ps.getD k default).originX
      ∧ (qs.getD k default).originY = (ps.getD k default).originY)

lemma getD_set_self {α} [Inhabited α] (l : List α) (i : ℕ) (a : α) (h : i < l.length) :
    (l.set i a).getD i default = a := by
  rw [List.getD_eq_getElem _ _ (by simpa using h)]
  exact List.getElem_set_self (by simpa using h)

lemma getD_set_ne {α} [Inhabited α] (l : List α) (i k : ℕ) (a : α) (h : i ≠ k) :
    (l.set i a).getD k default = l.getD k default := by
  by_cases hk : k < l.length
  · rw [List.getD_eq_getElem _ _ (by simpa using hk), List.getD_eq_getElem _ _ hk]
    exact List.getElem_set_ne h _
  · rw [List.getD_eq_default _ _ (by simpa using Nat.le_of_not_lt hk),
      List.getD_eq_default _ _ (Nat.le_of_not_lt hk)]

lemma getD_map_def {α β} [Inhabited α] [Inhabited β] (f : α → β) (l : List α) (k : ℕ)
    (hk : k < l.length) : (l.map f).getD k default = f (l.getD k default) := by
  rw [List.getD_eq_getElem _ _ (by simpa using hk), List.getD_eq_getElem _ _ hk]
  simp

/-- Claim C1: at every initialization with container dimensions W×H the
simulator creates exactly `⌊W·H·0.00015⌋` foreground and `⌊W·H·0.00005⌋`
background particles and reports their sum as the entity count; W=H=1000
yields 150 foreground, 50 background and a reported count of 200, and a
zero-size container yields zero particles. -/
theorem init_counts_exact :
    (∀ (rand : ℕ → ℝ) (width height : ℝ),
        (initParticles rand width height).particles.length
          = (⌊width * height * (0.00015 : ℝ)⌋).toNat
      ∧ (initParticles rand width height).backgroundParticles.length
          = (⌊width * height * (0.00005 : ℝ)⌋).toNat
      ∧ (initParticles rand width height).entityCount
          = ⌊width * height * (0.00015 : ℝ)⌋ + ⌊width * height * (0.00005 : ℝ)⌋)
    ∧ (∀ rand : ℕ → ℝ,
        (initParticles rand 1000 1000).particles.length = 150
      ∧ (initParticles rand 1000 1000).backgroundParticles.length = 50
      ∧ (initParticles rand 1000 1000).entityCount = 200)
    ∧ (∀ rand : ℕ → ℝ,
        (initParticles rand 0 0).particles.length = 0
      ∧ (initParticles rand 0 0).backgroundParticles.length = 0
      ∧ (initParticles rand 0 0).entityCount = 0) := by
  have h15 : ⌊(1000 : ℝ) * 1000 * PARTICLE_DENSITY⌋ = (150 : ℤ) := by
    norm_num [PARTICLE_DENSITY]
  have h05 : ⌊(1000 : ℝ) * 1000 * BG_PARTICLE_DENSITY⌋ = (50 : ℤ) := by
    norm_num [BG_PARTICLE_DENSITY]
  refine ⟨fun rand width height => ?_, fun rand => ?_, fun rand => ?_⟩
  · refine ⟨?_, ?_, ?_⟩ <;>
      simp [initParticles, PARTICLE_DENSITY, BG_PARTICLE_DENSITY]
  · refine ⟨?_, ?_, ?_⟩ <;>
      simp [initParticles, h15, h05]
  · refine ⟨?_, ?_, ?_⟩ <;>
      simp [initParticles]

/-- Claim C3: the per-frame gradient colour is a 3-stop interpolation with
each RGB channel interpolated independently and rounded to the nearest
integer, using stop0→stop1 for progress ≤ 1 and stop1→stop2 by
(progress − 1) otherwise; it yields exactly (66,133,244) at progress 0,
(147,51,234) at progress 1 and (34,211,238) at progress 2. -/
theorem gradient_three_stop_interpolation :
    (∀ (start stop : Fin 3 → ℝ) (factor : ℝ) (i : Fin 3),
        lerpColor start stop factor i
          = round (start i + (stop i - start i) * factor))
    ∧ (∀ p : ℝ, currentColor p
        = if p ≤ 1 then lerpColor colorStop0 colorStop1 p
          else lerpColor colorStop1 colorStop2 (p - 1))
    ∧ (currentColor 0 0 = 66 ∧ currentColor 0 1 = 133 ∧ currentColor 0 2 = 244)
    ∧ (currentColor 1 0 = 147 ∧ currentColor 1 1 = 51 ∧ currentColor 1 2 = 234)
    ∧ (currentColor 2 0 = 34 ∧ currentColor 2 1 = 211 ∧ currentColor 2 2 = 238) := by
  refine ⟨fun start stop factor i => rfl, fun p => rfl, ⟨?_, ?_, ?_⟩, ⟨?_, ?_, ?_⟩,
    ⟨?_, ?_, ?_⟩⟩ <;>
    norm_num [currentColor, lerpColor, colorStop0, colorStop1, colorStop2]

/-- Claim C8: background particles wrap at all four canvas edges: after
advancing by velocity (plus 10% of `scrollForce` vertically), a coordinate
that has crossed below 0 is reset to the maximum edge, one that has crossed
above the maximum is reset to 0, and one inside the range is unchanged. -/
theorem bg_wrap_toroidal (width height scrollForce : ℝ) (p : BackgroundParticle)
    (hw : 0 ≤ width) (hh : 0 ≤ height) :
    ((p.x + p.vx < 0 → (bgStep width height scrollForce p).x = width)
      ∧ (p.x + p.vx > width → (bgStep width height scrollForce p).x = 0)
      ∧ (0 ≤ p.x + p.vx → p.x + p.vx ≤ width →
          (bgStep width height scrollForce p).x = p.x + p.vx))
    ∧ ((p.y + p.vy + scrollForce * 0.1 < 0 →
          (bgStep width height scrollForce p).y = height)
      ∧ (p.y + p.vy + scrollForce * 0.1 > height →
          (bgStep width height scrollForce p).y = 0)
      ∧ (0 ≤ p.y + p.vy + scrollForce * 0.1 →
          p.y + p.vy + scrollForce * 0.1 ≤ height →
          (bgStep width height scrollForce p).y = p.y + p.vy + scrollForce * 0.1)) := by
  refine ⟨⟨fun h => ?_, fun h => ?_, fun h0 h1 => ?_⟩,
    ⟨fun h => ?_, fun h => ?_, fun h0 h1 => ?_⟩⟩ <;>
    simp only [bgStep] <;> split_ifs <;> linarith

/-- Witness for C8: at canvas width 100, a background particle advancing
from x = 99 with vx = 2 ends the frame past the right edge and wraps to
x = 0; one advancing from x = 1 with vx = -2 crosses the left edge and
wraps to x = 100. -/
theorem bg_wrap_toroidal_witness :
    (bgStep 100 100 0
      { x := 99, y := 50, vx := 2, vy := 0, size := 1, alpha := 0.2, phase := 0 }).x = 0
    ∧ (bgStep 100 100 0
      { x := 1, y := 50, vx := -2, vy := 0, size := 1, alpha := 0.2, phase := 0 }).x = 100 :=
  ⟨(bg_wrap_toroidal 100 100 0 _ (by norm_num) (by norm_num)).1.2.1 (by norm_num),
   (bg_wrap_toroidal 100 100 0 _ (by norm_num) (by norm_num)).1.1 (by norm_num)⟩

/-- Claim C9: if the canvas or its 2D context is unavailable when the frame
callback runs, the frame mutates no state and does not re-request the next
frame callback; when both are available the callback always re-arms itself
(no other exit path exists). -/
theorem frame_noop_without_canvas :
    (∀ (time : ℝ) (scroll : Option ScrollInfo) (innerHeight : ℝ)
        (mouse : MouseState) (st : SimState),
        animate time none scroll innerHeight mouse st = (st, false))
    ∧ (∀ (time : ℝ) (c : Canvas) (scroll : Option ScrollInfo) (innerHeight : ℝ)
        (mouse : MouseState) (st : SimState), c.ctx2d = none →
        animate time (some c) scroll innerHeight mouse st = (st, false))
    ∧ (∀ (time : ℝ) (c : Canvas) (u : Unit) (scroll : Option ScrollInfo)
        (innerHeight : ℝ) (mouse : MouseState) (st : SimState), c.ctx2d = some u →
        (animate time (some c) scroll innerHeight mouse st).2 = true) := by
  refine ⟨fun time scroll innerHeight mouse st => rfl,
    fun time c scroll innerHeight mouse st h => ?_,
    fun time c u scroll innerHeight mouse st h => ?_⟩
  · simp only [animate, h]
  · simp only [animate, h]

/-- Witness for C9: a canvas whose `getContext('2d')` yields null makes the
frame return the state unchanged without re-arming, and a canvas with a
context re-arms. -/
theorem frame_noop_without_canvas_witness :
    animate 0 (some { width := 100, height := 100, ctx2d := none }) none 800
        { x := -1000, y := -1000, isActive := false }
        { particles := [], backgroundParticles := [], lastScrollTop := 0,
          lastTime := 0, frameCount := 0, lastFpsTime := 0 }
      = (⟨[], [], 0, 0, 0, 0⟩, false)
    ∧ (animate 0 (some { width := 100, height := 100, ctx2d := some () }) none 800
        { x := -1000, y := -1000, isActive := false }
        { particles := [], backgroundParticles := [], lastScrollTop := 0,
          lastTime := 0, frameCount := 0, lastFpsTime := 0 }).2 = true :=
  ⟨frame_noop_without_canvas.2.1 0 _ none 800 _ _ rfl,
   frame_noop_without_canvas.2.2 0 _ () none 800 _ _ rfl⟩

lemma originEq_refl (ps : List Particle) : OriginEq ps ps :=
  ⟨rfl, fun _ => ⟨rfl, rfl⟩⟩

lemma originEq_trans {a b c : List Particle} (h1 : OriginEq a b) (h2 : OriginEq b c) :
    OriginEq a c :=
  ⟨h1.1.trans h2.1, fun k => ⟨(h1.2 k).1.trans (h2.2 k).1, (h1.2 k).2.trans (h2.2 k).2⟩⟩

lemma originEq_set (l : List Particle) (i : ℕ) (a : Particle)
    (ha1 : a.originX = (l.getD i default).originX)
    (ha2 : a.originY = (l.getD i default).originY) :
    OriginEq (l.set i a) l := by
  refine ⟨List.length_set l i a, fun k => ?_⟩
  by_cases hik : i = k
  · subst hik
    by_cases hi : i < l.length
    · rw [getD_set_self _ _ _ hi]; exact ⟨ha1, ha2⟩
    · rw [List.getD_eq_default _ _ (by simpa using Nat.le_of_not_lt hi),
        List.getD_eq_default _ _ (Nat.le_of_not_lt hi)]
      exact ⟨rfl, rfl⟩
  · rw [getD_set_ne _ _ _ _ hik]; exact ⟨rfl, rfl⟩

lemma originEq_collideAt (ps : List Particle) (i j : ℕ) :
    OriginEq (collideAt ps i j) ps := by
  simp only [collideAt]
  split_ifs with h1 h2
  · have hA : OriginEq
        (ps.set i { ps.getD i default with
          x := (ps.getD i default).x -
            ((ps.getD j default).x - (ps.getD i default).x) /
              Real.sqrt (((ps.getD j default).x - (ps.getD i default).x) *
                  ((ps.getD j default).x - (ps.getD i default).x) +
                ((ps.getD j default).y - (ps.getD i default).y) *
                  ((ps.getD j default).y - (ps.getD i default).y)) *
              (((ps.getD i default).size + (ps.getD j default).size) -
                Real.sqrt (((ps.getD j default).x - (ps.getD i default).x) *
                    ((ps.getD j default).x - (ps.getD i default).x) +
                  ((ps.getD j default).y - (ps.getD i default).y) *
                    ((ps.getD j default).y - (ps.getD i default).y))) * 0.5,
          y := (ps.getD i default).y -
            ((ps.getD j default).y - (ps.getD i default).y) /
              Real.sqrt (((ps.getD j default).x - (ps.getD i default).x) *
                  ((ps.getD j default).x - (ps.getD i default).x) +
                ((ps.getD j default).y - (ps.getD i default).y) *
                  ((ps.getD j default).y - (ps.getD i default).y)) *
              (((ps.getD i default).size + (ps.getD j default).size) -
                Real.sqrt (((ps.getD j default).x - (ps.getD i default).x) *
                    ((ps.getD j default).x - (ps.getD i default).x) +
                  ((ps.getD j default).y - (ps.getD i default).y) *
                    ((ps.getD j default).y - (ps.getD i default).y))) * 0.5 }) ps :=
      originEq_set _ _ _ rfl rfl
    exact originEq_trans
      (originEq_set _ _ _ ((hA.2 j).1.symm) ((hA.2 j).2.symm)) hA
  · exact originEq_refl ps
  · exact originEq_refl ps

lemma originEq_integrateStep (ps : List Particle) (i : ℕ) :
    OriginEq (integrateStep ps i) ps := by
  simp only [integrateStep]
  exact originEq_set _ _ _ rfl rfl

lemma originEq_foldl {β : Type} (f : List Particle → β → List Particle)
    (hf : ∀ s b, OriginEq (f s b) s) (l : List β) (s : List Particle) :
    OriginEq (l.foldl f s) s := by
  induction l generalizing s with
  | nil => exact originEq_refl s
  | cons b l ih => exact originEq_trans (ih (f s b)) (hf s b)

lemma originEq_innerCollisions (ps : List Particle) (i : ℕ) :
    OriginEq (innerCollisions ps i) ps := by
  simp only [innerCollisions]
  exact originEq_foldl _ (fun s j => originEq_collideAt s i j) _ ps

lemma originEq_pass (ps : List Particle) :
    OriginEq (collisionIntegratePass ps) ps := by
  simp only [collisionIntegratePass]
  refine originEq_foldl _ (fun s i => ?_) _ ps
  refine originEq_trans (originEq_integrateStep _ i) ?_
  by_cases h : i % 2 = 0
  · rw [if_pos h]; exact originEq_innerCollisions s i
  · rw [if_neg h]; exact originEq_refl s

lemma forceStep_preserves_origin (mouse : MouseState) (scrollForce : ℝ) (p : Particle) :
    (forceStep mouse scrollForce p).originX = p.originX
    ∧ (forceStep mouse scrollForce p).originY = p.originY := by
  simp only [forceStep, springStep, scrollStep, mouseStep]
  split_ifs <;> exact ⟨rfl, rfl⟩

lemma originEq_map_forceStep (mouse : MouseState) (scrollForce : ℝ)
    (ps : List Particle) : OriginEq (ps.map (forceStep mouse scrollForce)) ps := by
  refine ⟨List.length_map ps _, fun k => ?_⟩
  by_cases hk : k < ps.length
  · rw [getD_map_def _ _ _ hk]
    exact forceStep_preserves_origin mouse scrollForce (ps.getD k default)
  · rw [List.getD_eq_default _ _ (by simpa using Nat.le_of_not_lt hk),
      List.getD_eq_default _ _ (Nat.le_of_not_lt hk)]
    exact ⟨rfl, rfl⟩

/-- Claim C7: the origin fields (`originX`, `originY`) are set at creation
to the particle's initial position and are never modified by the per-frame
update (mouse repulsion, scroll wind, spring, collision, integration);
only a full reinitialisation builds new particles. -/
theorem origins_immutable_per_frame :
    (∀ (mouse : MouseState) (scrollForce : ℝ) (ps : List Particle) (k : ℕ),
        ((frameUpdateFg mouse scrollForce ps).getD k default).originX
          = (ps.getD k default).originX
      ∧ ((frameUpdateFg mouse scrollForce ps).getD k default).originY
          = (ps.getD k default).originY
      ∧ (frameUpdateFg mouse scrollForce ps).length = ps.length)
    ∧ (∀ (rand : ℕ → ℝ) (width height : ℝ) (k : ℕ),
        ((initParticles rand width height).particles.getD k default).originX
          = ((initParticles rand width height).particles.getD k default).x
      ∧ ((initParticles rand width height).particles.getD k default).originY
          = ((initParticles rand width height).particles.getD k default).y) := by
  constructor
  · intro mouse scrollForce ps k
    have h : OriginEq (frameUpdateFg mouse scrollForce ps) ps :=
      originEq_trans (originEq_pass (ps.map (forceStep mouse scrollForce)))
        (originEq_map_forceStep mouse scrollForce ps)
    exact ⟨(h.2 k).1, (h.2 k).2, h.1⟩
  · intro rand width height k
    simp only [initParticles]
    by_cases hk : k < (⌊width * height * PARTICLE_DENSITY⌋).toNat
    · rw [getD_map_def _ _ _ (by simpa using hk)]
      exact ⟨rfl, rfl⟩
    · rw [List.getD_eq_default _ _ (by simpa using Nat.le_of_not_lt hk)]
      exact ⟨rfl, rfl⟩

/-- Claim C6: when the pointer is active at Euclidean distance `d` from a
foreground particle with `0 < d < 250`, the update adds to the velocity a
vector of magnitude `((250 − d)/250) · 1.2 · 5` that is a positive multiple
of the vector from the pointer to the particle (directed exactly away from
the pointer); when the pointer is inactive or `d ≥ 250` the velocity is
untouched. -/
theorem mouse_repulsion_exact (mouse : MouseState) (p : Particle) (d : ℝ)
    (hd : d = Real.sqrt ((mouse.x - p.x) * (mouse.x - p.x) +
      (mouse.y - p.y) * (mouse.y - p.y))) :
    (mouse.isActive = true → 0 < d → d < 250 →
      ((mouseStep mouse p).vx - p.vx
          = ((250 - d) / 250 * 1.2 * 5) / d * (p.x - mouse.x)
        ∧ (mouseStep mouse p).vy - p.vy
          = ((250 - d) / 250 * 1.2 * 5) / d * (p.y - mouse.y)
        ∧ 0 < ((250 - d) / 250 * 1.2 * 5) / d
        ∧ Real.sqrt (((mouseStep mouse p).vx - p.vx) ^ 2
            + ((mouseStep mouse p).vy - p.vy) ^ 2)
          = (250 - d) / 250 * 1.2 * 5))
    ∧ ((mouse.isActive = false ∨ 250 ≤ d) → mouseStep mouse p = p) := by
  have hSnn : 0 ≤ (mouse.x - p.x) * (mouse.x - p.x) +
      (mouse.y - p.y) * (mouse.y - p.y) :=
    add_nonneg (mul_self_nonneg _) (mul_self_nonneg _)
  have hS : (mouse.x - p.x) * (mouse.x - p.x) + (mouse.y - p.y) * (mouse.y - p.y)
      = d ^ 2 := by
    rw [hd, Real.sq_sqrt hSnn]
  constructor
  · intro hA h0 h250
    have hd0 : d ≠ 0 := ne_of_gt h0
    have hk : 0 < (250 - d) / 250 * 1.2 * 5 := by
      have : (0 : ℝ) < 250 - d := by linarith
      positivity
    have hstep : (mouseStep mouse p).vx
          = p.vx - (mouse.x - p.x) / d * ((250 - d) / 250 * 1.2) * 5
        ∧ (mouseStep mouse p).vy
          = p.vy - (mouse.y - p.y) / d * ((250 - d) / 250 * 1.2) * 5 := by
      simp only [mouseStep, MOUSE_RADIUS, REPULSION_STRENGTH, ← hd]
      rw [if_pos ⟨hA, h250⟩]
      exact ⟨rfl, rfl⟩
    have e1 : (mouseStep mouse p).vx - p.vx
        = ((250 - d) / 250 * 1.2 * 5) / d * (p.x - mouse.x) := by
      rw [hstep.1]; field_simp; ring
    have e2 : (mouseStep mouse p).vy - p.vy
        = ((250 - d) / 250 * 1.2 * 5) / d * (p.y - mouse.y) := by
      rw [hstep.2]; field_simp; ring
    refine ⟨e1, e2, div_pos hk h0, ?_⟩
    rw [e1, e2]
    have hsum : (((250 - d) / 250 * 1.2 * 5) / d * (p.x - mouse.x)) ^ 2
        + (((250 - d) / 250 * 1.2 * 5) / d * (p.y - mouse.y)) ^ 2
        = ((250 - d) / 250 * 1.2 * 5) ^ 2 := by
      have expand : (((250 - d) / 250 * 1.2 * 5) / d * (p.x - mouse.x)) ^ 2
          + (((250 - d) / 250 * 1.2 * 5) / d * (p.y - mouse.y)) ^ 2
          = ((mouse.x - p.x) * (mouse.x - p.x) + (mouse.y - p.y) * (mouse.y - p.y))
            * (((250 - d) / 250 * 1.2 * 5) / d) ^ 2 := by ring
      rw [expand, hS]
      field_simp
      ring
    rw [hsum]
    exact Real.sqrt_sq hk.le
  · intro h
    simp only [mouseStep, MOUSE_RADIUS, REPULSION_STRENGTH, ← hd]
    rcases h with h | h
    · rw [if_neg]
      rintro ⟨hA, -⟩
      rw [h] at hA
      exact Bool.false_ne_true hA
    · rw [if_neg]
      rintro ⟨-, hlt⟩
      exact absurd hlt (not_lt.mpr h)

/-- Witness for C6: pointer at (100, 0), particle at the origin, distance
100 < 250: the velocity change has magnitude ((250 − 100)/250) · 1.2 · 5,
and the linear-falloff factor (250 − 100)/250 equals 0.6. -/
theorem mouse_repulsion_exact_witness :
    Real.sqrt (((mouseStep { x := 100, y := 0, isActive := true }
          { x := 0, y := 0, originX := 0, originY := 0, vx := 0, vy := 0,
            size := 1, color := "#ffffff", angle := 0 }).vx - 0) ^ 2
        + ((mouseStep { x := 100, y := 0, isActive := true }
          { x := 0, y := 0, originX := 0, originY := 0, vx := 0, vy := 0,
            size := 1, color := "#ffffff", angle := 0 }).vy - 0) ^ 2)
      = (250 - 100) / 250 * 1.2 * 5
    ∧ ((250 : ℝ) - 100) / 250 = 0.6 := by
  have hd : (100 : ℝ) = Real.sqrt (((100 : ℝ) - 0) * (100 - 0) + (0 - 0) * (0 - 0)) := by
    rw [show ((100 : ℝ) - 0) * (100 - 0) + (0 - 0) * (0 - 0) = 100 ^ 2 by norm_num,
      Real.sqrt_sq (by norm_num)]
  refine ⟨?_, by norm_num⟩
  exact ((mouse_repulsion_exact { x := 100, y := 0, isActive := true }
    { x := 0, y := 0, originX := 0, originY := 0, vx := 0, vy := 0,
      size := 1, color := "#ffffff", angle := 0 } 100 hd).1 rfl (by norm_num)
    (by norm_num)).2.2.2

/-- Claim C10: the mouse-repulsion step has no guard for distance zero: an
active pointer exactly at a foreground particle's position satisfies the
`distance < 250` check, and the force direction `0 / 0` is non-finite
(JS `NaN`), poisoning the updated velocity (`mouseStepJS` returns `none`),
unlike the collision pass's `0.01` cutoff. -/
theorem repulsion_nan_at_zero_distance (mouse : MouseState) (p : Particle)
    (hA : mouse.isActive = true) (hx : mouse.x = p.x) (hy : mouse.y = p.y) :
    Real.sqrt ((mouse.x - p.x) * (mouse.x - p.x) + (mouse.y - p.y) * (mouse.y - p.y)) = 0
    ∧ (mouse.isActive = true
        ∧ Real.sqrt ((mouse.x - p.x) * (mouse.x - p.x)
            + (mouse.y - p.y) * (mouse.y - p.y)) < MOUSE_RADIUS)
    ∧ mouseStepJS mouse p = none := by
  have h0 : Real.sqrt ((mouse.x - p.x) * (mouse.x - p.x)
      + (mouse.y - p.y) * (mouse.y - p.y)) = 0 := by
    rw [hx, hy]
    simp
  refine ⟨h0, ⟨hA, by rw [h0]; norm_num [MOUSE_RADIUS]⟩, ?_⟩
  simp only [mouseStepJS, jsDiv]
  rw [if_pos ⟨hA, by rw [h0]; norm_num [MOUSE_RADIUS]⟩, if_pos h0]

/-- Witness for C10: an active pointer at (5, 7) over a particle at (5, 7)
drives the repulsion update to the non-finite (`NaN`) result. -/
theorem repulsion_nan_at_zero_distance_witness :
    mouseStepJS { x := 5, y := 7, isActive := true }
      { x := 5, y := 7, originX := 5, originY := 7, vx := 0, vy := 0,
        size := 1, color := "#ffffff", angle := 0 } = none :=
  (repulsion_nan_at_zero_distance { x := 5, y := 7, isActive := true }
    { x := 5, y := 7, originX := 5, originY := 7, vx := 0, vy := 0,
      size := 1, color := "#ffffff", angle := 0 } rfl rfl rfl).2.2

lemma collideAt_resolves (ps : List Particle) (i j : ℕ) (d : ℝ) (p1 p2 : Particle)
    (hij : i ≠ j) (hi : i < ps.length) (hj : j < ps.length)
    (hp1 : ps.getD i default = p1) (hp2 : ps.getD j default = p2)
    (hd : d = Real.sqrt ((p2.x - p1.x) * (p2.x - p1.x) + (p2.y - p1.y) * (p2.y - p1.y)))
    (h001 : 0.01 < d) (hover : d < p1.size + p2.size) :
    ((collideAt ps i j).getD i default).x
        = p1.x - (p2.x - p1.x) / d * (p1.size + p2.size - d) * 0.5
    ∧ ((collideAt ps i j).getD i default).y
        = p1.y - (p2.y - p1.y) / d * (p1.size + p2.size - d) * 0.5
    ∧ ((collideAt ps i j).getD j default).x
        = p2.x + (p2.x - p1.x) / d * (p1.size + p2.size - d) * 0.5
    ∧ ((collideAt ps i j).getD j default).y
        = p2.y + (p2.y - p1.y) / d * (p1.size + p2.size - d) * 0.5
    ∧ (((collideAt ps i j).getD i default).x - p1.x) ^ 2
        + (((collideAt ps i j).getD i default).y - p1.y) ^ 2
        = ((p1.size + p2.size - d) / 2) ^ 2
    ∧ (((collideAt ps i j).getD j default).x - p2.x) ^ 2
        + (((collideAt ps i j).getD j default).y - p2.y) ^ 2
        = ((p1.size + p2.size - d) / 2) ^ 2
    ∧ (((collideAt ps i j).getD j default).x - ((collideAt ps i j).getD i default).x) ^ 2
        + (((collideAt ps i j).getD j default).y - ((collideAt ps i j).getD i default).y) ^ 2
        = (p1.size + p2.size) ^ 2 := by
  have hdpos : 0 < d := lt_trans (by norm_num) h001
  have hd0 : d ≠ 0 := ne_of_gt hdpos
  have hSnn : 0 ≤ (p2.x - p1.x) * (p2.x - p1.x) + (p2.y - p1.y) * (p2.y - p1.y) :=
    add_nonneg (mul_self_nonneg _) (mul_self_nonneg _)
  have hS : (p2.x - p1.x) * (p2.x - p1.x) + (p2.y - p1.y) * (p2.y - p1.y) = d * d := by
    rw [hd, Real.mul_self_sqrt hSnn]
  have hguard : (p2.x - p1.x) * (p2.x - p1.x) + (p2.y - p1.y) * (p2.y - p1.y)
      < (p1.size + p2.size) * (p1.size + p2.size) := by
    rw [hS]
    exact mul_self_lt_mul_self hdpos.le hover
  have hq1x : ((collideAt ps i j).getD i default).x
      = p1.x - (p2.x - p1.x) / d * (p1.size + p2.size - d) * 0.5 := by
    simp only [collideAt, hp1, hp2, ← hd]
    rw [if_pos hguard, if_pos h001, getD_set_ne _ _ _ _ (Ne.symm hij),
      getD_set_self _ _ _ hi]
  have hq1y : ((collideAt ps i j).getD i default).y
      = p1.y - (p2.y - p1.y) / d * (p1.size + p2.size - d) * 0.5 := by
    simp only [collideAt, hp1, hp2, ← hd]
    rw [if_pos hguard, if_pos h001, getD_set_ne _ _ _ _ (Ne.symm hij),
      getD_set_self _ _ _ hi]
  have hq2x : ((collideAt ps i j).getD j default).x
      = p2.x + (p2.x - p1.x) / d * (p1.size + p2.size - d) * 0.5 := by
    simp only [collideAt, hp1, hp2, ← hd]
    rw [if_pos hguard, if_pos h001,
      getD_set_self _ _ _ (by simpa using hj)]
  have hq2y : ((collideAt ps i j).getD j default).y
      = p2.y + (p2.y - p1.y) / d * (p1.size + p2.size - d) * 0.5 := by
    simp only [collideAt, hp1, hp2, ← hd]
    rw [if_pos hguard, if_pos h001,
      getD_set_self _ _ _ (by simpa using hj)]
  refine ⟨hq1x, hq1y, hq2x, hq2y, ?_, ?_, ?_⟩
  · rw [hq1x, hq1y]
    have expand : (p1.x - (p2.x - p1.x) / d * (p1.size + p2.size - d) * 0.5 - p1.x) ^ 2
        + (p1.y - (p2.y - p1.y) / d * (p1.size + p2.size - d) * 0.5 - p1.y) ^ 2
        = ((p2.x - p1.x) * (p2.x - p1.x) + (p2.y - p1.y) * (p2.y - p1.y))
          * ((p1.size + p2.size - d) * 0.5 / d) ^ 2 := by ring
    rw [expand, hS]
    field_simp
    ring
  · rw [hq2x, hq2y]
    have expand : (p2.x + (p2.x - p1.x) / d * (p1.size + p2.size - d) * 0.5 - p2.x) ^ 2
        + (p2.y + (p2.y - p1.y) / d * (p1.size + p2.size - d) * 0.5 - p2.y) ^ 2
        = ((p2.x - p1.x) * (p2.x - p1.x) + (p2.y - p1.y) * (p2.y - p1.y))
          * ((p1.size + p2.size - d) * 0.5 / d) ^ 2 := by ring
    rw [expand, hS]
    field_simp
    ring
  · rw [hq1x, hq1y, hq2x, hq2y]
    have expand : (p2.x + (p2.x - p1.x) / d * (p1.size + p2.size - d) * 0.5
          - (p1.x - (p2.x - p1.x) / d * (p1.size + p2.size - d) * 0.5)) ^ 2
        + (p2.y + (p2.y - p1.y) / d * (p1.size + p2.size - d) * 0.5
          - (p1.y - (p2.y - p1.y) / d * (p1.size + p2.size - d) * 0.5)) ^ 2
        = ((p2.x - p1.x) * (p2.x - p1.x) + (p2.y - p1.y) * (p2.y - p1.y))
          * ((1 + (p1.size + p2.size - d) / d)) ^ 2 := by ring
    rw [expand, hS]
    field_simp
    ring

/-- Claim C4: for two overlapping equal-radius foreground particles at
distance `d` with `0.01 < d < 2r`, the resolution check of that pair pushes
each particle by `(2r − d)/2` along the collision normal in opposite
directions, so the pair separates by total distance `2r − d`, split evenly,
leaving them exactly touching (centre distance `2r`). -/
theorem equal_radius_pair_separation (ps : List Particle) (i j : ℕ) (r d : ℝ)
    (p1 p2 : Particle)
    (hij : i ≠ j) (hi : i < ps.length) (hj : j < ps.length)
    (hp1 : ps.getD i default = p1) (hp2 : ps.getD j default = p2)
    (hr1 : p1.size = r) (hr2 : p2.size = r)
    (hd : d = Real.sqrt ((p2.x - p1.x) * (p2.x - p1.x) + (p2.y - p1.y) * (p2.y - p1.y)))
    (h001 : 0.01 < d) (hover : d < 2 * r) :
    ((collideAt ps i j).getD i default).x
        = p1.x - (p2.x - p1.x) / d * ((2 * r - d) / 2)
    ∧ ((collideAt ps i j).getD i default).y
        = p1.y - (p2.y - p1.y) / d * ((2 * r - d) / 2)
    ∧ ((collideAt ps i j).getD j default).x
        = p2.x + (p2.x - p1.x) / d * ((2 * r - d) / 2)
    ∧ ((collideAt ps i j).getD j default).y
        = p2.y + (p2.y - p1.y) / d * ((2 * r - d) / 2)
    ∧ (((collideAt ps i j).getD i default).x - p1.x) ^ 2
        + (((collideAt ps i j).getD i default).y - p1.y) ^ 2 = ((2 * r - d) / 2) ^ 2
    ∧ (((collideAt ps i j).getD j default).x - p2.x) ^ 2
        + (((collideAt ps i j).getD j default).y - p2.y) ^ 2 = ((2 * r - d) / 2) ^ 2
    ∧ (((collideAt ps i j).getD j default).x - ((collideAt ps i j).getD i default).x) ^ 2
        + (((collideAt ps i j).getD j default).y - ((collideAt ps i j).getD i default).y) ^ 2
        = (2 * r) ^ 2 := by
  have hover' : d < p1.size + p2.size := by rw [hr1, hr2]; linarith
  obtain ⟨h1x, h1y, h2x, h2y, hdisp1, hdisp2, hsep⟩ :=
    collideAt_resolves ps i j d p1 p2 hij hi hj hp1 hp2 hd h001 hover'
  rw [hr1, hr2] at h1x h1y h2x h2y hdisp1 hdisp2 hsep
  refine ⟨?_, ?_, ?_, ?_, ?_, ?_, ?_⟩
  · rw [h1x]; ring
  · rw [h1y]; ring
  · rw [h2x]; ring
  · rw [h2y]; ring
  · rw [hdisp1]; ring
  · rw [hdisp2]; ring
  · rw [hsep]; ring

/-- Witness for C4: particles of radius 1 at (0,0) and (1,0), distance 1
with 0.01 < 1 < 2: after the check of the pair, the squared centre distance
is exactly (2·1)² and each particle moved by distance (2·1 − 1)/2. -/
theorem equal_radius_pair_separation_witness :
    (((collideAt
        [{ x := 0, y := 0, originX := 0, originY := 0, vx := 0, vy := 0,
            size := 1, color := "#ffffff", angle := 0 },
          { x := 1, y := 0, originX := 1, originY := 0, vx := 0, vy := 0,
            size := 1, color := "#ffffff", angle := 0 }] 0 1).getD 1 default).x
      - ((collideAt
        [{ x := 0, y := 0, originX := 0, originY := 0, vx := 0, vy := 0,
            size := 1, color := "#ffffff", angle := 0 },
          { x := 1, y := 0, originX := 1, originY := 0, vx := 0, vy := 0,
            size := 1, color := "#ffffff", angle := 0 }] 0 1).getD 0 default).x) ^ 2
    + (((collideAt
        [{ x := 0, y := 0, originX := 0, originY := 0, vx := 0, vy := 0,
            size := 1, color := "#ffffff", angle := 0 },
          { x := 1, y := 0, originX := 1, originY := 0, vx := 0, vy := 0,
            size := 1, color := "#ffffff", angle := 0 }] 0 1).getD 1 default).y
      - ((collideAt
        [{ x := 0, y := 0, originX := 0, originY := 0, vx := 0, vy := 0,
            size := 1, color := "#ffffff", angle := 0 },
          { x := 1, y := 0, originX := 1, originY := 0, vx := 0, vy := 0,
            size := 1, color := "#ffffff", angle := 0 }] 0 1).getD 0 default).y) ^ 2
    = (2 * 1) ^ 2 :=
  (equal_radius_pair_separation
    [{ x := 0, y := 0, originX := 0, originY := 0, vx := 0, vy := 0,
        size := 1, color := "#ffffff", angle := 0 },
      { x := 1, y := 0, originX := 1, originY := 0, vx := 0, vy := 0,
        size := 1, color := "#ffffff", angle := 0 }] 0 1 1 1
    { x := 0, y := 0, originX := 0, originY := 0, vx := 0, vy := 0,
      size := 1, color := "#ffffff", angle := 0 }
    { x := 1, y := 0, originX := 1, originY := 0, vx := 0, vy := 0,
      size := 1, color := "#ffffff", angle := 0 }
    (by norm_num) (by norm_num) (by norm_num) rfl rfl rfl rfl
    (by norm_num [Real.sqrt_one])
    (by norm_num) (by norm_num)).2.2.2.2.2.2

/-- Claim C2 (amended): the collision pass initiates checks only from
even-indexed particles, so a pair is examined exactly when its lower index
is even; every pair that IS checked while overlapping (with centre distance
above the 0.01 cutoff) is pushed to exact contact — afterwards its squared
centre distance equals the squared sum of radii and no longer triggers the
overlap test.  Pairs whose both indices are odd are never checked (see the
counterexample). -/
theorem collision_checked_pair_resolves (ps : List Particle) (i j : ℕ) (d : ℝ)
    (p1 p2 : Particle)
    (hij : i ≠ j) (hi : i < ps.length) (hj : j < ps.length)
    (hp1 : ps.getD i default = p1) (hp2 : ps.getD j default = p2)
    (hd : d = Real.sqrt ((p2.x - p1.x) * (p2.x - p1.x) + (p2.y - p1.y) * (p2.y - p1.y)))
    (h001 : 0.01 < d) (hover : d < p1.size + p2.size) :
    (((collideAt ps i j).getD j default).x - ((collideAt ps i j).getD i default).x) ^ 2
        + (((collideAt ps i j).getD j default).y - ((collideAt ps i j).getD i default).y) ^ 2
        = (p1.size + p2.size) ^ 2
    ∧ ¬((((collideAt ps i j).getD j default).x - ((collideAt ps i j).getD i default).x)
          * (((collideAt ps i j).getD j default).x - ((collideAt ps i j).getD i default).x)
        + (((collideAt ps i j).getD j default).y - ((collideAt ps i j).getD i default).y)
          * (((collideAt ps i j).getD j default).y - ((collideAt ps i j).getD i default).y)
        < (p1.size + p2.size) * (p1.size + p2.size)) := by
  have hsep :=
    (collideAt_resolves ps i j d p1 p2 hij hi hj hp1 hp2 hd h001 hover).2.2.2.2.2.2
  exact ⟨hsep, fun hlt => by nlinarith [hsep]⟩

/-- Witness for the amended C2: particles of radii 1 and 2 at (0,0) and
(2,0) overlap (distance 2 < 3); after the check of pair (0,1) they are at
exact contact: squared centre distance (1 + 2)². -/
theorem collision_checked_pair_resolves_witness :
    (((collideAt
        [{ x := 0, y := 0, originX := 0, originY := 0, vx := 0, vy := 0,
            size := 1, color := "#ffffff", angle := 0 },
          { x := 2, y := 0, originX := 2, originY := 0, vx := 0, vy := 0,
            size := 2, color := "#ffffff", angle := 0 }] 0 1).getD 1 default).x
      - ((collideAt
        [{ x := 0, y := 0, originX := 0, originY := 0, vx := 0, vy := 0,
            size := 1, color := "#ffffff", angle := 0 },
          { x := 2, y := 0, originX := 2, originY := 0, vx := 0, vy := 0,
            size := 2, color := "#ffffff", angle := 0 }] 0 1).getD 0 default).x) ^ 2
    + (((collideAt
        [{ x := 0, y := 0, originX := 0, originY := 0, vx := 0, vy := 0,
            size := 1, color := "#ffffff", angle := 0 },
          { x := 2, y := 0, originX := 2, originY := 0, vx := 0, vy := 0,
            size := 2, color := "#ffffff", angle := 0 }] 0 1).getD 1 default).y
      - ((collideAt
        [{ x := 0, y := 0, originX := 0, originY := 0, vx := 0, vy := 0,
            size := 1, color := "#ffffff", angle := 0 },
          { x := 2, y := 0, originX := 2, originY := 0, vx := 0, vy := 0,
            size := 2, color := "#ffffff", angle := 0 }] 0 1).getD 0 default).y) ^ 2
    = ((1 : ℝ) + 2) ^ 2 :=
  (collision_checked_pair_resolves
    [{ x := 0, y := 0, originX := 0, originY := 0, vx := 0, vy := 0,
        size := 1, color := "#ffffff", angle := 0 },
      { x := 2, y := 0, originX := 2, originY := 0, vx := 0, vy := 0,
        size := 2, color := "#ffffff", angle := 0 }] 0 1 2
    { x := 0, y := 0, originX := 0, originY := 0, vx := 0, vy := 0,
      size := 1, color := "#ffffff", angle := 0 }
    { x := 2, y := 0, originX := 2, originY := 0, vx := 0, vy := 0,
      size := 2, color := "#ffffff", angle := 0 }
    (by norm_num) (by norm_num) (by norm_num) rfl rfl
    (by rw [show ((2 : ℝ) - 0) * (2 - 0) + (0 - 0) * (0 - 0) = 2 ^ 2 by norm_num,
      Real.sqrt_sq (by norm_num : (0 : ℝ) ≤ 2)])
    (by norm_num) (by norm_num)).1

/-- Claim C2 (counterexample): the even-index-only collision pass does NOT
resolve every overlapping pair.  In the four-particle configuration below,
particles 1 and 3 (both odd indices) overlap — centre distance 0.5, sum of
radii 2 — yet the full pass leaves both of them exactly unchanged, because
no check is ever initiated from an odd index and neither belongs to a
checked overlapping pair. -/
theorem collision_pass_misses_odd_pair_counterexample :
    ((([{ x := 0, y := 0, originX := 0, originY := 0, vx := 0, vy := 0, size := 1, color := "#ffffff", angle := 0 },
      { x := 10, y := 0, originX := 10, originY := 0, vx := 0, vy := 0, size := 1, color := "#ffffff", angle := 0 },
      { x := 20, y := 0, originX := 20, originY := 0, vx := 0, vy := 0, size := 1, color := "#ffffff", angle := 0 },
      { x := 10.5, y := 0, originX := 10.5, originY := 0, vx := 0, vy := 0, size := 1, color := "#ffffff", angle := 0 }] : List Particle).getD 3 default).x - (([{ x := 0, y := 0, originX := 0, originY := 0, vx := 0, vy := 0, size := 1, color := "#ffffff", angle := 0 },
      { x := 10, y := 0, originX := 10, originY := 0, vx := 0, vy := 0, size := 1, color := "#ffffff", angle := 0 },
      { x := 20, y := 0, originX := 20, originY := 0, vx := 0, vy := 0, size := 1, color := "#ffffff", angle := 0 },
      { x := 10.5, y := 0, originX := 10.5, originY := 0, vx := 0, vy := 0, size := 1, color := "#ffffff", angle := 0 }] : List Particle).getD 1 default).x)
        * ((([{ x := 0, y := 0, originX := 0, originY := 0, vx := 0, vy := 0, size := 1, color := "#ffffff", angle := 0 },
      { x := 10, y := 0, originX := 10, originY := 0, vx := 0, vy := 0, size := 1, color := "#ffffff", angle := 0 },
      { x := 20, y := 0, originX := 20, originY := 0, vx := 0, vy := 0, size := 1, color := "#ffffff", angle := 0 },
      { x := 10.5, y := 0, originX := 10.5, originY := 0, vx := 0, vy := 0, size := 1, color := "#ffffff", angle := 0 }] : List Particle).getD 3 default).x - (([{ x := 0, y := 0, originX := 0, originY := 0, vx := 0, vy := 0, size := 1, color := "#ffffff", angle := 0 },
      { x := 10, y := 0, originX := 10, originY := 0, vx := 0, vy := 0, size := 1, color := "#ffffff", angle := 0 },
      { x := 20, y := 0, originX := 20, originY := 0, vx := 0, vy := 0, size := 1, color := "#ffffff", angle := 0 },
      { x := 10.5, y := 0, originX := 10.5, originY := 0, vx := 0, vy := 0, size := 1, color := "#ffffff", angle := 0 }] : List Particle).getD 1 default).x)
      + ((([{ x := 0, y := 0, originX := 0, originY := 0, vx := 0, vy := 0, size := 1, color := "#ffffff", angle := 0 },
      { x := 10, y := 0, originX := 10, originY := 0, vx := 0, vy := 0, size := 1, color := "#ffffff", angle := 0 },
      { x := 20, y := 0, originX := 20, originY := 0, vx := 0, vy := 0, size := 1, color := "#ffffff", angle := 0 },
      { x := 10.5, y := 0, originX := 10.5, originY := 0, vx := 0, vy := 0, size := 1, color := "#ffffff", angle := 0 }] : List Particle).getD 3 default).y - (([{ x := 0, y := 0, originX := 0, originY := 0, vx := 0, vy := 0, size := 1, color := "#ffffff", angle := 0 },
      { x := 10, y := 0, originX := 10, originY := 0, vx := 0, vy := 0, size := 1, color := "#ffffff", angle := 0 },
      { x := 20, y := 0, originX := 20, originY := 0, vx := 0, vy := 0, size := 1, color := "#ffffff", angle := 0 },
      { x := 10.5, y := 0, originX := 10.5, originY := 0, vx := 0, vy := 0, size := 1, color := "#ffffff", angle := 0 }] : List Particle).getD 1 default).y)
        * ((([{ x := 0, y := 0, originX := 0, originY := 0, vx := 0, vy := 0, size := 1, color := "#ffffff", angle := 0 },
      { x := 10, y := 0, originX := 10, originY := 0, vx := 0, vy := 0, size := 1, color := "#ffffff", angle := 0 },
      { x := 20, y := 0, originX := 20, originY := 0, vx := 0, vy := 0, size := 1, color := "#ffffff", angle := 0 },
      { x := 10.5, y := 0, originX := 10.5, originY := 0, vx := 0, vy := 0, size := 1, color := "#ffffff", angle := 0 }] : List Particle).getD 3 default).y - (([{ x := 0, y := 0, originX := 0, originY := 0, vx := 0, vy := 0, size := 1, color := "#ffffff", angle := 0 },
      { x := 10, y := 0, originX := 10, originY := 0, vx := 0, vy := 0, size := 1, color := "#ffffff", angle := 0 },
      { x := 20, y := 0, originX := 20, originY := 0, vx := 0, vy := 0, size := 1, color := "#ffffff", angle := 0 },
      { x := 10.5, y := 0, originX := 10.5, originY := 0, vx := 0, vy := 0, size := 1, color := "#ffffff", angle := 0 }] : List Particle).getD 1 default).y)
      < ((([{ x := 0, y := 0, originX := 0, originY := 0, vx := 0, vy := 0, size := 1, color := "#ffffff", angle := 0 },
      { x := 10, y := 0, originX := 10, originY := 0, vx := 0, vy := 0, size := 1, color := "#ffffff", angle := 0 },
      { x := 20, y := 0, originX := 20, originY := 0, vx := 0, vy := 0, size := 1, color := "#ffffff", angle := 0 },
      { x := 10.5, y := 0, originX := 10.5, originY := 0, vx := 0, vy := 0, size := 1, color := "#ffffff", angle := 0 }] : List Particle).getD 1 default).size + (([{ x := 0, y := 0, originX := 0, originY := 0, vx := 0, vy := 0, size := 1, color := "#ffffff", angle := 0 },
      { x := 10, y := 0, originX := 10, originY := 0, vx := 0, vy := 0, size := 1, color := "#ffffff", angle := 0 },
      { x := 20, y := 0, originX := 20, originY := 0, vx := 0, vy := 0, size := 1, color := "#ffffff", angle := 0 },
      { x := 10.5, y := 0, originX := 10.5, originY := 0, vx := 0, vy := 0, size := 1, color := "#ffffff", angle := 0 }] : List Particle).getD 3 default).size)
        * ((([{ x := 0, y := 0, originX := 0, originY := 0, vx := 0, vy := 0, size := 1, color := "#ffffff", angle := 0 },
      { x := 10, y := 0, originX := 10, originY := 0, vx := 0, vy := 0, size := 1, color := "#ffffff", angle := 0 },
      { x := 20, y := 0, originX := 20, originY := 0, vx := 0, vy := 0, size := 1, color := "#ffffff", angle := 0 },
      { x := 10.5, y := 0, originX := 10.5, originY := 0, vx := 0, vy := 0, size := 1, color := "#ffffff", angle := 0 }] : List Particle).getD 1 default).size + (([{ x := 0, y := 0, originX := 0, originY := 0, vx := 0, vy := 0, size := 1, color := "#ffffff", angle := 0 },
      { x := 10, y := 0, originX := 10, originY := 0, vx := 0, vy := 0, size := 1, color := "#ffffff", angle := 0 },
      { x := 20, y := 0, originX := 20, originY := 0, vx := 0, vy := 0, size := 1, color := "#ffffff", angle := 0 },
      { x := 10.5, y := 0, originX := 10.5, originY := 0, vx := 0, vy := 0, size := 1, color := "#ffffff", angle := 0 }] : List Particle).getD 3 default).size)
    ∧ (collisionIntegratePass ([{ x := 0, y := 0, originX := 0, originY := 0, vx := 0, vy := 0, size := 1, color := "#ffffff", angle := 0 },
      { x := 10, y := 0, originX := 10, originY := 0, vx := 0, vy := 0, size := 1, color := "#ffffff", angle := 0 },
      { x := 20, y := 0, originX := 20, originY := 0, vx := 0, vy := 0, size := 1, color := "#ffffff", angle := 0 },
      { x := 10.5, y := 0, originX := 10.5, originY := 0, vx := 0, vy := 0, size := 1, color := "#ffffff", angle := 0 }] : List Particle)).getD 1 default = ([{ x := 0, y := 0, originX := 0, originY := 0, vx := 0, vy := 0, size := 1, color := "#ffffff", angle := 0 },
      { x := 10, y := 0, originX := 10, originY := 0, vx := 0, vy := 0, size := 1, color := "#ffffff", angle := 0 },
      { x := 20, y := 0, originX := 20, originY := 0, vx := 0, vy := 0, size := 1, color := "#ffffff", angle := 0 },
      { x := 10.5, y := 0, originX := 10.5, originY := 0, vx := 0, vy := 0, size := 1, color := "#ffffff", angle := 0 }] : List Particle).getD 1 default
    ∧ (collisionIntegratePass ([{ x := 0, y := 0, originX := 0, originY := 0, vx := 0, vy := 0, size := 1, color := "#ffffff", angle := 0 },
      { x := 10, y := 0, originX := 10, originY := 0, vx := 0, vy := 0, size := 1, color := "#ffffff", angle := 0 },
      { x := 20, y := 0, originX := 20, originY := 0, vx := 0, vy := 0, size := 1, color := "#ffffff", angle := 0 },
      { x := 10.5, y := 0, originX := 10.5, originY := 0, vx := 0, vy := 0, size := 1, color := "#ffffff", angle := 0 }] : List Particle)).getD 3 default = ([{ x := 0, y := 0, originX := 0, originY := 0, vx := 0, vy := 0, size := 1, color := "#ffffff", angle := 0 },
      { x := 10, y := 0, originX := 10, originY := 0, vx := 0, vy := 0, size := 1, color := "#ffffff", angle := 0 },
      { x := 20, y := 0, originX := 20, originY := 0, vx := 0, vy := 0, size := 1, color := "#ffffff", angle := 0 },
      { x := 10.5, y := 0, originX := 10.5, originY := 0, vx := 0, vy := 0, size := 1, color := "#ffffff", angle := 0 }] : List Particle).getD 3 default := by
  have hpass : collisionIntegratePass [{ x := 0, y := 0, originX := 0, originY := 0, vx := 0, vy := 0, size := 1, color := "#ffffff", angle := 0 },
      { x := 10, y := 0, originX := 10, originY := 0, vx := 0, vy := 0, size := 1, color := "#ffffff", angle := 0 },
      { x := 20, y := 0, originX := 20, originY := 0, vx := 0, vy := 0, size := 1, color := "#ffffff", angle := 0 },
      { x := 10.5, y := 0, originX := 10.5, originY := 0, vx := 0, vy := 0, size := 1, color := "#ffffff", angle := 0 }] = [{ x := 0, y := 0, originX := 0, originY := 0, vx := 0, vy := 0, size := 1, color := "#ffffff", angle := 0 },
      { x := 10, y := 0, originX := 10, originY := 0, vx := 0, vy := 0, size := 1, color := "#ffffff", angle := 0 },
      { x := 20, y := 0, originX := 20, originY := 0, vx := 0, vy := 0, size := 1, color := "#ffffff", angle := 0 },
      { x := 10.5, y := 0, originX := 10.5, originY := 0, vx := 0, vy := 0, size := 1, color := "#ffffff", angle := 0 }] := by
    norm_num [collisionIntegratePass, innerCollisions, collideAt, integrateStep, DAMPING,
      show List.range 4 = [0, 1, 2, 3] from rfl,
      show List.range' 1 3 = [1, 2, 3] from rfl,
      show List.range' 3 1 = [3] from rfl]
  refine ⟨by norm_num, ?_, ?_⟩
  · rw [hpass]
  · rw [hpass]

lemma frameUpdateFg_singleton (mouse : MouseState) (p : Particle)
    (hA : mouse.isActive = false) :
    frameUpdateFg mouse 0 [p]
      = [{ p with
          vx := (p.vx + (p.originX - p.x) * RETURN_SPEED) * DAMPING,
          vy := (p.vy + (p.originY - p.y) * RETURN_SPEED) * DAMPING,
          x := p.x + (p.vx + (p.originX - p.x) * RETURN_SPEED) * DAMPING,
          y := p.y + (p.vy + (p.originY - p.y) * RETURN_SPEED) * DAMPING }] := by
  simp only [frameUpdateFg, List.map, forceStep, scrollStep, springStep, mouseStep, hA,
    collisionIntegratePass, innerCollisions, integrateStep]
  norm_num [show List.range 1 = [0] from rfl, show List.range' 1 0 = [] from rfl]

/-- Claim C5 (counterexample): a single foreground particle starting at its
origin with velocity (1, 0), pointer inactive and scrollForce 0, does NOT
have strictly monotonically decreasing speed over successive frames: the
integration moves the particle off its origin, the spring re-engages, the
velocity crosses zero near frame 7 and the speed then grows — the squared
speed after frame 7 is smaller than after frame 8. -/
theorem damping_speed_not_monotone_counterexample :
    ((((fun ps => frameUpdateFg { x := -1000, y := -1000, isActive := false } 0 ps)^[7]
        [{ x := 0, y := 0, originX := 0, originY := 0, vx := 1, vy := 0, size := 1, color := "#ffffff", angle := 0 }]).getD 0 default).vx) ^ 2
      + ((((fun ps => frameUpdateFg { x := -1000, y := -1000, isActive := false } 0 ps)^[7]
        [{ x := 0, y := 0, originX := 0, originY := 0, vx := 1, vy := 0, size := 1, color := "#ffffff", angle := 0 }]).getD 0 default).vy) ^ 2
    < ((((fun ps => frameUpdateFg { x := -1000, y := -1000, isActive := false } 0 ps)^[8]
        [{ x := 0, y := 0, originX := 0, originY := 0, vx := 1, vy := 0, size := 1, color := "#ffffff", angle := 0 }]).getD 0 default).vx) ^ 2
      + ((((fun ps => frameUpdateFg { x := -1000, y := -1000, isActive := false } 0 ps)^[8]
        [{ x := 0, y := 0, originX := 0, originY := 0, vx := 1, vy := 0, size := 1, color := "#ffffff", angle := 0 }]).getD 0 default).vy) ^ 2 := by
  have t1 : (fun ps => frameUpdateFg { x := -1000, y := -1000, isActive := false } 0 ps)^[1]
      [{ x := 0, y := 0, originX := 0, originY := 0, vx := 1, vy := 0, size := 1, color := "#ffffff", angle := 0 }]
      = [{ x := (23 : ℝ) / 25, y := 0, originX := 0, originY := 0, vx := (23 : ℝ) / 25, vy := 0, size := 1, color := "#ffffff", angle := 0 }] := by
    rw [Function.iterate_one, frameUpdateFg_singleton _ _ rfl]
    norm_num [Particle.mk.injEq, RETURN_SPEED, DAMPING]
  have t2 : (fun ps => frameUpdateFg { x := -1000, y := -1000, isActive := false } 0 ps)^[2]
      [{ x := 0, y := 0, originX := 0, originY := 0, vx := 1, vy := 0, size := 1, color := "#ffffff", angle := 0 }]
      = [{ x := (21551 : ℝ) / 12500, y := 0, originX := 0, originY := 0, vx := (10051 : ℝ) / 12500, vy := 0, size := 1, color := "#ffffff", angle := 0 }] := by
    rw [show (2 : ℕ) = 1 + 1 from rfl, Function.iterate_succ_apply', t1,
      frameUpdateFg_singleton _ _ rfl]
    norm_num [Particle.mk.injEq, RETURN_SPEED, DAMPING]
  have t3 : (fun ps => frameUpdateFg { x := -1000, y := -1000, isActive := false } 0 ps)^[3]
      [{ x := 0, y := 0, originX := 0, originY := 0, vx := 1, vy := 0, size := 1, color := "#ffffff", angle := 0 }]
      = [{ x := (14903287 : ℝ) / 6250000, y := 0, originX := 0, originY := 0, vx := (4127787 : ℝ) / 6250000, vy := 0, size := 1, color := "#ffffff", angle := 0 }] := by
    rw [show (3 : ℕ) = 2 + 1 from rfl, Function.iterate_succ_apply', t2,
      frameUpdateFg_singleton _ _ rfl]
    norm_num [Particle.mk.injEq, RETURN_SPEED, DAMPING]
  have t4 : (fun ps => frameUpdateFg { x := -1000, y := -1000, isActive := false } 0 ps)^[4]
      [{ x := 0, y := 0, originX := 0, originY := 0, vx := 1, vy := 0, size := 1, color := "#ffffff", angle := 0 }]
      = [{ x := (9007649919 : ℝ) / 3125000000, y := 0, originX := 0, originY := 0, vx := (1556006419 : ℝ) / 3125000000, vy := 0, size := 1, color := "#ffffff", angle := 0 }] := by
    rw [show (4 : ℕ) = 3 + 1 from rfl, Function.iterate_succ_apply', t3,
      frameUpdateFg_singleton _ _ rfl]
    norm_num [Particle.mk.injEq, RETURN_SPEED, DAMPING]
  have t5 : (fun ps => frameUpdateFg { x := -1000, y := -1000, isActive := false } 0 ps)^[5]
      [{ x := 0, y := 0, originX := 0, originY := 0, vx := 1, vy := 0, size := 1, color := "#ffffff", angle := 0 }]
      = [{ x := (5012411964103 : ℝ) / 1562500000000, y := 0, originX := 0, originY := 0, vx := (508587004603 : ℝ) / 1562500000000, vy := 0, size := 1, color := "#ffffff", angle := 0 }] := by
    rw [show (5 : ℕ) = 4 + 1 from rfl, Function.iterate_succ_apply', t4,
      frameUpdateFg_singleton _ _ rfl]
    norm_num [Particle.mk.injEq, RETURN_SPEED, DAMPING]
  have t6 : (fun ps => frameUpdateFg { x := -1000, y := -1000, isActive := false } 0 ps)^[6]
      [{ x := 0, y := 0, originX := 0, originY := 0, vx := 1, vy := 0, size := 1, color := "#ffffff", angle := 0 }]
      = [{ x := (2624870528994511 : ℝ) / 781250000000000, y := 0, originX := 0, originY := 0, vx := (118664546943011 : ℝ) / 781250000000000, vy := 0, size := 1, color := "#ffffff", angle := 0 }] := by
    rw [show (6 : ℕ) = 5 + 1 from rfl, Function.iterate_succ_apply', t5,
      frameUpdateFg_singleton _ _ rfl]
    norm_num [Particle.mk.injEq, RETURN_SPEED, DAMPING]
  have t7 : (fun ps => frameUpdateFg { x := -1000, y := -1000, isActive := false } 0 ps)^[7]
      [{ x := 0, y := 0, originX := 0, originY := 0, vx := 1, vy := 0, size := 1, color := "#ffffff", angle := 0 }]
      = [{ x := (1306648933924166807 : ℝ) / 390625000000000000, y := 0, originX := 0, originY := 0, vx := -(5786330573088693 : ℝ) / 390625000000000000, vy := 0, size := 1, color := "#ffffff", angle := 0 }] := by
    rw [show (7 : ℕ) = 6 + 1 from rfl, Function.iterate_succ_apply', t6,
      frameUpdateFg_singleton _ _ rfl]
    norm_num [Particle.mk.injEq, RETURN_SPEED, DAMPING]
  have t8 : (fun ps => frameUpdateFg { x := -1000, y := -1000, isActive := false } 0 ps)^[8]
      [{ x := 0, y := 0, originX := 0, originY := 0, vx := 1, vy := 0, size := 1, color := "#ffffff", angle := 0 }]
      = [{ x := (620609829418206768159 : ℝ) / 195312500000000000000, y := 0, originX := 0, originY := 0, vx := -(32714637543876635341 : ℝ) / 195312500000000000000, vy := 0, size := 1, color := "#ffffff", angle := 0 }] := by
    rw [show (8 : ℕ) = 7 + 1 from rfl, Function.iterate_succ_apply', t7,
      frameUpdateFg_singleton _ _ rfl]
    norm_num [Particle.mk.injEq, RETURN_SPEED, DAMPING]
  rw [t7, t8]
  norm_num


/-- Claim C5 (amended): in a frame with the pointer inactive, scrollForce 0
and the particle exactly at its origin, the update multiplies the velocity
by the damping factor 0.92 exactly once (no other term contributes); and
the damping-only velocity recurrence v ↦ 0.92·v has strictly monotonically
decreasing squared speed converging to zero for any nonzero start.  Over
successive frames of the full dynamics, however, the particle leaves its
origin and the spring re-engages, so speed is not monotone (see the
counterexample). -/
theorem damping_factor_per_frame (p : Particle) (mouse : MouseState)
    (hA : mouse.isActive = false) (hx : p.x = p.originX) (hy : p.y = p.originY) :
    (((frameUpdateFg mouse 0 [p]).getD 0 default).vx = p.vx * DAMPING
      ∧ ((frameUpdateFg mouse 0 [p]).getD 0 default).vy = p.vy * DAMPING)
    ∧ ∀ vx vy : ℝ, ¬(vx = 0 ∧ vy = 0) →
        StrictAnti (fun n : ℕ => (DAMPING ^ n * vx) ^ 2 + (DAMPING ^ n * vy) ^ 2)
        ∧ Filter.Tendsto
            (fun n : ℕ => (DAMPING ^ n * vx) ^ 2 + (DAMPING ^ n * vy) ^ 2)
            Filter.atTop (nhds 0) := by
  refine ⟨?_, ?_⟩
  · rw [frameUpdateFg_singleton _ _ hA]
    constructor
    · show (p.vx + (p.originX - p.x) * RETURN_SPEED) * DAMPING = p.vx * DAMPING
      rw [hx]; ring
    · show (p.vy + (p.originY - p.y) * RETURN_SPEED) * DAMPING = p.vy * DAMPING
      rw [hy]; ring
  · intro vx vy hne
    have hs0 : 0 < vx ^ 2 + vy ^ 2 := by
      rcases not_and_or.mp hne with h | h
      · exact add_pos_of_pos_of_nonneg (pow_two_pos_of_ne_zero h) (sq_nonneg vy)
      · exact add_pos_of_nonneg_of_pos (sq_nonneg vx) (pow_two_pos_of_ne_zero h)
    have key : ∀ n : ℕ, (DAMPING ^ n * vx) ^ 2 + (DAMPING ^ n * vy) ^ 2
        = (vx ^ 2 + vy ^ 2) * (DAMPING ^ 2) ^ n := by
      intro n; ring
    constructor
    · refine strictAnti_nat_of_succ_lt fun n => ?_
      rw [key (n + 1), key n, pow_succ (DAMPING ^ 2) n]
      have hp : 0 < (DAMPING ^ 2) ^ n := pow_pos (by norm_num [DAMPING]) n
      have hD2 : DAMPING ^ 2 < 1 := by norm_num [DAMPING]
      nlinarith [mul_pos hs0 hp, hD2]
    · have hrw : (fun n : ℕ => (DAMPING ^ n * vx) ^ 2 + (DAMPING ^ n * vy) ^ 2)
          = fun n : ℕ => (vx ^ 2 + vy ^ 2) * (DAMPING ^ 2) ^ n := funext key
      rw [hrw]
      have hgeo : Filter.Tendsto (fun n : ℕ => (DAMPING ^ 2) ^ n)
          Filter.atTop (nhds 0) :=
        tendsto_pow_atTop_nhds_zero_of_lt_one (sq_nonneg DAMPING)
          (by norm_num [DAMPING])
      simpa using hgeo.const_mul (vx ^ 2 + vy ^ 2)

/-- Witness for the amended C5: a particle at its origin with velocity
(1, 0) and inactive pointer has its velocity multiplied by exactly 0.92 in
one frame, and the damping-only squared speed drops from step 0 to step 1. -/
theorem damping_factor_per_frame_witness :
    ((frameUpdateFg { x := -1000, y := -1000, isActive := false } 0
        [{ x := 0, y := 0, originX := 0, originY := 0, vx := 1, vy := 0, size := 1, color := "#ffffff", angle := 0 }]).getD
        0 default).vx = 1 * DAMPING
    ∧ (DAMPING ^ 1 * 1) ^ 2 + (DAMPING ^ 1 * 0) ^ 2
        < (DAMPING ^ 0 * 1) ^ 2 + (DAMPING ^ 0 * 0) ^ 2 :=
  ⟨(damping_factor_per_frame
      { x := 0, y := 0, originX := 0, originY := 0, vx := 1, vy := 0, size := 1, color := "#ffffff", angle := 0 }
      { x := -1000, y := -1000, isActive := false } rfl rfl rfl).1.1,
   ((damping_factor_per_frame
      { x := 0, y := 0, originX := 0, originY := 0, vx := 1, vy := 0, size := 1, color := "#ffffff", angle := 0 }
      { x := -1000, y := -1000, isActive := false } rfl rfl rfl).2 1 0
      (by norm_num)).1 (by norm_num : (0 : ℕ) < 1)⟩

end Vormaza
